import Mathlib

/-!
# Verification of the recipe-sharing backend (`src/routes/recipes.js`)

A shallow embedding of the Express route handlers in `src/routes/recipes.js`.
Mongoose documents become Lean structures, the MongoDB state becomes an
explicit `DB` value threaded through each handler, and the Cloudinary calls
(`uploader.upload_stream`, `uploader.destroy`) become oracle parameters that
say how the external call would have resolved.  Each handler returns the
HTTP-level outcome it produces (the status/message it sets before throwing,
or the success payload), together with the post-state of the database and,
where ordering matters, the trace of external calls it performed.

JavaScript truthiness is modelled where the code relies on it: an absent or
empty string field is `none`/`""` and `x || y` on strings keeps `y` when `x`
is empty.  `mongoose.Types.ObjectId.isValid` is modelled by a `valid` flag
on the raw request id.
-/

namespace RecipeApp

/-- A Cloudinary asset handle as stored on documents:
`{ public_id, url }` (`photo` on recipes, `profilePhoto` on users). -/
structure PhotoHandle where
  public_id : String
  url : String
deriving DecidableEq, Repr

/-- An embedded reply subdocument: `{ description, user }` plus the
subdocument `_id` mongoose assigns. -/
structure Reply where
  replyId : Nat
  description : String
  user : Nat
deriving DecidableEq, Repr

/-- An embedded review subdocument: `{ rating, description, user, replies }`
plus the subdocument `_id`. -/
structure Review where
  reviewId : Nat
  rating : Int
  description : String
  user : Nat
  replies : List Reply
deriving DecidableEq, Repr

/-- A recipe document. `photo` is optional because the handlers guard with
`recipe.photo?.public_id`. -/
structure Recipe where
  rid : Nat
  title : String
  ingredients : List String
  instructions : String
  category : String
  cookingTime : String
  photo : Option PhotoHandle
  createdBy : Nat
  reviews : List Review
deriving DecidableEq, Repr

/-- A user document, restricted to the fields the recipe routes touch. -/
structure UserRec where
  uid : Nat
  username : String
  profilePhoto : Option PhotoHandle
  favorites : List Nat
deriving DecidableEq, Repr

/-- The persistent state: the recipes and users collections. -/
structure DB where
  recipes : List Recipe
  users : List UserRec
deriving DecidableEq, Repr

/-- `Recipe.findById`. -/
def findRecipe (db : DB) (i : Nat) : Option Recipe :=
  db.recipes.find? (fun r => r.rid == i)

/-- `User.findById`. -/
def findUser (db : DB) (i : Nat) : Option UserRec :=
  db.users.find? (fun u => u.uid == i)

/-- `recipe.save()`: whole-aggregate overwrite of the document with the
same `_id`. -/
def saveRecipe (db : DB) (r : Recipe) : DB :=
  { db with recipes := db.recipes.map (fun x => if x.rid == r.rid then r else x) }

/-- `user.save()` / `User.findByIdAndUpdate`: overwrite of the user document
with the same `_id`. -/
def saveUser (db : DB) (u : UserRec) : DB :=
  { db with users := db.users.map (fun x => if x.uid == u.uid then u else x) }

/-- `recipe.deleteOne()`: remove the document from the collection. -/
def removeRecipe (db : DB) (i : Nat) : DB :=
  { db with recipes := db.recipes.filter (fun r => r.rid != i) }

/-- A raw `req.params` identifier: `valid` models
`mongoose.Types.ObjectId.isValid`, `oid` the identifier it denotes. -/
structure ReqId where
  valid : Bool
  oid : Nat
deriving DecidableEq, Repr

/-- What `cloudinary.uploader.upload_stream` resolved to: a result object
(success) or a rejection of the wrapping promise. -/
inductive UploadOutcome where
  | ok (public_id : String) (secure_url : String)
  | err
deriving DecidableEq, Repr

/-- What `await cloudinary.uploader.destroy(pid)` did: the promise resolved
(with some result payload such as `{result:"ok"}` or `{result:"not found"}`,
which the handlers never inspect), or it rejected. -/
inductive DestroyOutcome where
  | resolved (result : String)
  | rejected
deriving DecidableEq, Repr

/-- Trace entry for an external Cloudinary call made by a handler. -/
inductive ExtCall where
  | destroyCall (public_id : String)
  | uploadCall (folder : String)
deriving DecidableEq, Repr

/-! ## DELETE /:id — delete a recipe -/

/-- Outcome of the delete handler.  `destroyError` is the uncaught rejection
of `cloudinary.uploader.destroy`, which `asyncHandler` forwards to the error
middleware; the handler never reaches `recipe.deleteOne()` in that case. -/
inductive DeleteOutcome where
  | invalidId
  | notFound
  | forbidden
  | destroyError
  | ok
deriving DecidableEq, Repr

/-- `router.delete("/:id")` from `src/routes/recipes.js` (lines 333-359):
validate the id, load the recipe, check ownership, `await` the Cloudinary
destroy when a photo exists (no try/catch around it), then delete the
document and answer `{message:"Recipe deleted"}`. -/
def deleteRecipeHandler (db : DB) (reqUser : Nat) (rid : ReqId)
    (destroy : DestroyOutcome) : DeleteOutcome × DB × List ExtCall :=
  if !rid.valid then (.invalidId, db, [])
  else match findRecipe db rid.oid with
    | none => (.notFound, db, [])
    | some recipe =>
      if recipe.createdBy != reqUser then (.forbidden, db, [])
      else match recipe.photo with
        | some ph =>
          match destroy with
          | .rejected => (.destroyError, db, [.destroyCall ph.public_id])
          | .resolved _ =>
            (.ok, removeRecipe db rid.oid, [.destroyCall ph.public_id])
        | none => (.ok, removeRecipe db rid.oid, [])

/-! ## PUT /:id — update a recipe -/

/-- The raw `ingredients` form field as the handler sees it:
falsy (absent or empty string), a string `JSON.parse` rejects, or a string
parsing to a list of strings. -/
inductive IngredientsField where
  | absent
  | malformed
  | parsed (items : List String)
deriving DecidableEq, Repr

/-- Whether the raw `ingredients` field is falsy. -/
def IngredientsField.isAbsent : IngredientsField → Bool
  | .absent => true
  | _ => false

/-- The multipart body of a create/update request.  Absent string fields and
empty strings are both falsy in the handlers, so both are modelled as `""`. -/
structure RecipeBody where
  title : String
  ingredients : IngredientsField
  instructions : String
  category : String
  cookingTime : String
deriving DecidableEq, Repr

/-- `x || old` on form-field strings: keep `old` when `x` is falsy. -/
def strOr (x old : String) : String :=
  if x == "" then old else x

/-- Outcome of the update handler.  `destroyError` and `uploadError` are the
uncaught rejections of the Cloudinary calls; `parseError` is `JSON.parse`
throwing on the `ingredients` field.  In each of those cases `recipe.save()`
is never reached, so the database is unchanged. -/
inductive UpdateOutcome where
  | invalidId
  | notFound
  | forbidden
  | destroyError
  | uploadError
  | parseError
  | ok (saved : Recipe)
deriving DecidableEq, Repr

/-- The aggregate after the partial field updates of lines 315-321:
`field || recipe.field` per string field, parsed ingredients or the
existing ones, and the already-computed photo. -/
def applyRecipeBody (recipe : Recipe) (body : RecipeBody)
    (newPhoto : Option PhotoHandle) : Recipe :=
  { recipe with
    title := strOr body.title recipe.title
    ingredients := match body.ingredients with
      | .parsed items => items
      | _ => recipe.ingredients
    instructions := strOr body.instructions recipe.instructions
    category := strOr body.category recipe.category
    cookingTime := strOr body.cookingTime recipe.cookingTime
    photo := newPhoto }

/-- Lines 315-328 of the update handler: `JSON.parse` the ingredients
(throwing aborts with no save), apply the partial field updates and the
already-computed photo, then save the whole aggregate. -/
def updateFinish (db : DB) (recipe : Recipe) (body : RecipeBody)
    (newPhoto : Option PhotoHandle) (trace : List ExtCall) :
    UpdateOutcome × DB × List ExtCall :=
  match body.ingredients with
  | .malformed => (.parseError, db, trace)
  | _ =>
    (.ok (applyRecipeBody recipe body newPhoto),
     saveRecipe db (applyRecipeBody recipe body newPhoto), trace)

/-- `router.put("/:id")` (lines 269-330): validate the id, load, check
ownership.  If a file was uploaded, first `await` destroy of the old photo
when one exists (uncaught on rejection), then `await` the upload (uncaught
on rejection) and assign the new handle; finally apply partial field
updates and save. -/
def updateRecipeHandler (db : DB) (reqUser : Nat) (rid : ReqId)
    (body : RecipeBody) (file : Option Unit) (destroy : DestroyOutcome)
    (uploadRes : UploadOutcome) : UpdateOutcome × DB × List ExtCall :=
  if !rid.valid then (.invalidId, db, [])
  else match findRecipe db rid.oid with
    | none => (.notFound, db, [])
    | some recipe =>
      if recipe.createdBy != reqUser then (.forbidden, db, [])
      else match file with
        | none => updateFinish db recipe body recipe.photo []
        | some _ =>
          match recipe.photo with
          | some ph =>
            match destroy with
            | .rejected => (.destroyError, db, [.destroyCall ph.public_id])
            | .resolved _ =>
              match uploadRes with
              | .err =>
                (.uploadError, db,
                 [.destroyCall ph.public_id, .uploadCall "recipe-app/recipes"])
              | .ok pid url =>
                updateFinish db recipe body (some ⟨pid, url⟩)
                  [.destroyCall ph.public_id, .uploadCall "recipe-app/recipes"]
          | none =>
            match uploadRes with
            | .err => (.uploadError, db, [.uploadCall "recipe-app/recipes"])
            | .ok pid url =>
              updateFinish db recipe body (some ⟨pid, url⟩)
                [.uploadCall "recipe-app/recipes"]

/-! ## POST / — create a recipe -/

/-- Outcome of the create handler.  `createFailed` is the catch block
(500 "Failed to create recipe"): it covers both an upload rejection and
`JSON.parse` throwing on `ingredients`. -/
inductive CreateOutcome where
  | validationMissing
  | createFailed
  | ok (created : Recipe)
deriving DecidableEq, Repr

/-- `router.post("/")` (lines 92-145): reject with 400 if any field or the
file is falsy; upload the photo; create the document with
`createdBy: req.user._id` and the uploaded handle. -/
def createRecipeHandler (db : DB) (reqUser : Nat) (body : RecipeBody)
    (file : Option Unit) (uploadRes : UploadOutcome) (freshId : Nat) :
    CreateOutcome × DB × List ExtCall :=
  if body.title == "" || body.ingredients.isAbsent || body.instructions == ""
      || body.category == "" || body.cookingTime == "" || file.isNone then
    (.validationMissing, db, [])
  else match uploadRes with
    | .err => (.createFailed, db, [.uploadCall "recipe-app/recipes"])
    | .ok pid url =>
      match body.ingredients with
      | .parsed items =>
        let created : Recipe :=
          { rid := freshId
            title := body.title
            ingredients := items
            instructions := body.instructions
            category := body.category
            cookingTime := body.cookingTime
            photo := some ⟨pid, url⟩
            createdBy := reqUser
            reviews := [] }
        (.ok created, { db with recipes := db.recipes ++ [created] },
         [.uploadCall "recipe-app/recipes"])
      | _ => (.createFailed, db, [.uploadCall "recipe-app/recipes"])

/-! ## GET /:id and GET / — read endpoints with favorite annotation -/

/-- Outcome of the single-recipe read.  `okPlain` is the unauthenticated
response (`res.json(recipe)`, no `isFavorited` key); `okAnnotated` is the
spread `{...recipe.toJSON(), isFavorited}`. -/
inductive GetOutcome where
  | invalidId
  | notFound
  | userNotFound
  | okPlain (recipe : Recipe)
  | okAnnotated (recipe : Recipe) (isFavorited : Bool)
deriving DecidableEq, Repr

/-- `router.get("/:id")` (lines 234-266).  `reqUser` is `req.user`: the
identity an upstream middleware attached, or `none` when the viewer is
unknown (these routes mount no auth middleware themselves). -/
def getRecipeHandler (db : DB) (reqUser : Option Nat) (rid : ReqId) :
    GetOutcome :=
  if !rid.valid then .invalidId
  else match findRecipe db rid.oid with
    | none => .notFound
    | some recipe =>
      match reqUser with
      | none => .okPlain recipe
      | some uid =>
        match findUser db uid with
        | none => .userNotFound
        | some user =>
          .okAnnotated recipe (user.favorites.any (fun f => f == recipe.rid))

/-- Outcome of the list read: a plain recipe list, or one annotated
per-recipe with `isFavorited`. -/
inductive ListOutcome where
  | userNotFound
  | okPlain (recipes : List Recipe)
  | okAnnotated (recipes : List (Recipe × Bool))
deriving DecidableEq, Repr

/-- `router.get("/")` (lines 148-172): filter by category when the query
param is truthy; when a viewer is known, map each recipe to a copy carrying
`isFavorited` computed from the viewer's favorites. -/
def listRecipesHandler (db : DB) (reqUser : Option Nat) (category : String) :
    ListOutcome :=
  let recipes :=
    if category == "" then db.recipes
    else db.recipes.filter (fun r => r.category == category)
  match reqUser with
  | none => .okPlain recipes
  | some uid =>
    match findUser db uid with
    | none => .userNotFound
    | some user =>
      .okAnnotated (recipes.map
        (fun r => (r, user.favorites.any (fun f => f == r.rid))))

/-! ## POST /:id/reviews — add a review -/

/-- `String.prototype.trim()`: strip leading and trailing whitespace.
Implemented structurally on the character list so that it evaluates. -/
def jsTrim (s : String) : String :=
  ⟨(((s.data.dropWhile Char.isWhitespace).reverse).dropWhile
      Char.isWhitespace).reverse⟩

/-- Outcome of the review handler.  `ratingInvalid` and `descRequired` are
the two 400 validation branches; `duplicateReview` is
400 "You have already reviewed this recipe". -/
inductive AddReviewOutcome where
  | invalidId
  | notFound
  | ratingInvalid
  | descRequired
  | duplicateReview
  | ok (saved : Recipe)
deriving DecidableEq, Repr

/-- `router.post("/:id/reviews")` (lines 362-413): validate id, load,
check `!rating || rating < 1 || rating > 10`, then
`!description || description.trim() === ""`, then the linear duplicate scan
by author; push `{rating, description, user}` verbatim and save. -/
def addReviewHandler (db : DB) (reqUser : Nat) (rid : ReqId) (rating : Int)
    (description : String) (freshId : Nat) : AddReviewOutcome × DB :=
  if !rid.valid then (.invalidId, db)
  else match findRecipe db rid.oid with
    | none => (.notFound, db)
    | some recipe =>
      if rating == 0 || rating < 1 || rating > 10 then (.ratingInvalid, db)
      else if jsTrim description == "" then (.descRequired, db)
      else if recipe.reviews.any (fun rv => rv.user == reqUser) then
        (.duplicateReview, db)
      else
        let saved : Recipe :=
          { recipe with reviews :=
              recipe.reviews ++ [⟨freshId, rating, description, reqUser, []⟩] }
        (.ok saved, saveRecipe db saved)

/-! ## POST /:id/reviews/:reviewId/replies — add a reply -/

/-- Outcome of the reply handler. -/
inductive AddReplyOutcome where
  | invalidRecipeId
  | invalidReviewId
  | recipeNotFound
  | reviewNotFound
  | descRequired
  | ok (saved : Recipe)
deriving DecidableEq, Repr

/-- `router.post("/:id/reviews/:reviewId/replies")` (lines 416-463):
validate both ids, load the recipe, look the review up by subdocument id,
validate the description, push `{description, user}` verbatim onto that
review's replies and save the aggregate. -/
def addReplyHandler (db : DB) (reqUser : Nat) (rid revId : ReqId)
    (description : String) (freshId : Nat) : AddReplyOutcome × DB :=
  if !rid.valid then (.invalidRecipeId, db)
  else if !revId.valid then (.invalidReviewId, db)
  else match findRecipe db rid.oid with
    | none => (.recipeNotFound, db)
    | some recipe =>
      match recipe.reviews.find? (fun rv => rv.reviewId == revId.oid) with
      | none => (.reviewNotFound, db)
      | some _ =>
        if jsTrim description == "" then (.descRequired, db)
        else
          let saved : Recipe :=
            { recipe with reviews := recipe.reviews.map (fun rv =>
                if rv.reviewId == revId.oid then
                  { rv with replies := rv.replies ++ [⟨freshId, description, reqUser⟩] }
                else rv) }
          (.ok saved, saveRecipe db saved)

/-! ## POST /:id/favorite and DELETE /:id/favorite -/

/-- Outcome of the favorite toggles. -/
inductive FavOutcome where
  | invalidId
  | recipeNotFound
  | userNotFound
  | alreadyFavorited
  | notFavorited
  | ok (isFavorited : Bool)
deriving DecidableEq, Repr

/-- `router.post("/:id/favorite")` (lines 466-497): reject a duplicate add
with 400 "Recipe already in favorites", else push and save. -/
def addFavoriteHandler (db : DB) (reqUser : Nat) (rid : ReqId) :
    FavOutcome × DB :=
  if !rid.valid then (.invalidId, db)
  else match findRecipe db rid.oid with
    | none => (.recipeNotFound, db)
    | some recipe =>
      match findUser db reqUser with
      | none => (.userNotFound, db)
      | some user =>
        if user.favorites.contains recipe.rid then (.alreadyFavorited, db)
        else
          (.ok true,
           saveUser db { user with favorites := user.favorites ++ [recipe.rid] })

/-- `router.delete("/:id/favorite")` (lines 500-533): reject removal of an
absent member with 400 "Recipe not in favorites", else filter and save. -/
def removeFavoriteHandler (db : DB) (reqUser : Nat) (rid : ReqId) :
    FavOutcome × DB :=
  if !rid.valid then (.invalidId, db)
  else match findRecipe db rid.oid with
    | none => (.recipeNotFound, db)
    | some recipe =>
      match findUser db reqUser with
      | none => (.userNotFound, db)
      | some user =>
        if !(user.favorites.contains recipe.rid) then (.notFavorited, db)
        else
          (.ok false,
           saveUser db
             { user with
               favorites := user.favorites.filter (fun f => f != recipe.rid) })

/-! ## PUT /users/profile/photo — update the profile photo -/

/-- Outcome of the profile-photo handler.  `uploadFailed` is the catch
block (500 "Failed to upload photo to Cloudinary"); it also catches a
rejection of the destroy of the old asset. -/
inductive ProfilePhotoOutcome where
  | noFile
  | uploadFailed
  | ok (newPhoto : PhotoHandle)
deriving DecidableEq, Repr

/-- `User.findByIdAndUpdate(uid, {profilePhoto: some h})`: update one field
of the stored user document. -/
def setUserPhoto (db : DB) (uid : Nat) (h : PhotoHandle) : DB :=
  { db with users := db.users.map (fun x =>
      if x.uid == uid then { x with profilePhoto := some h } else x) }

/-- `router.put("/users/profile/photo")` (lines 30-89): 400 when no file;
inside one try/catch: upload the new photo first, then destroy the old one
when present, then write the user record.  Any rejection inside the block
yields the 500 upload failure with no record written. -/
def updateProfilePhotoHandler (db : DB) (reqUser : UserRec)
    (file : Option Unit) (uploadRes : UploadOutcome)
    (destroy : DestroyOutcome) : ProfilePhotoOutcome × DB × List ExtCall :=
  match file with
  | none => (.noFile, db, [])
  | some _ =>
    match uploadRes with
    | .err => (.uploadFailed, db, [.uploadCall "recipe-app/profiles"])
    | .ok pid url =>
      match reqUser.profilePhoto with
      | some old =>
        match destroy with
        | .rejected =>
          (.uploadFailed, db,
           [.uploadCall "recipe-app/profiles", .destroyCall old.public_id])
        | .resolved _ =>
          match findUser db reqUser.uid with
          | none =>
            (.uploadFailed, db,
             [.uploadCall "recipe-app/profiles", .destroyCall old.public_id])
          | some _ =>
            (.ok ⟨pid, url⟩, setUserPhoto db reqUser.uid ⟨pid, url⟩,
             [.uploadCall "recipe-app/profiles", .destroyCall old.public_id])
      | none =>
        match findUser db reqUser.uid with
        | none => (.uploadFailed, db, [.uploadCall "recipe-app/profiles"])
        | some _ =>
          (.ok ⟨pid, url⟩, setUserPhoto db reqUser.uid ⟨pid, url⟩,
           [.uploadCall "recipe-app/profiles"])

/-! ## Helper lemmas about the persistence primitives -/

/-- `find?` over a pointwise-replacing `map` is unchanged when the
replacement neither creates nor moves a match. -/
theorem find?_map_congr {α : Type} (f : α → α) (p : α → Bool) (l : List α)
    (h1 : ∀ x, p (f x) = p x) (h2 : ∀ x, p x = true → f x = x) :
    (l.map f).find? p = l.find? p := by
  induction l with
  | nil => rfl
  | cons a t ih =>
    simp only [List.map_cons, List.find?]
    rw [h1 a]
    cases ha : p a with
    | true => rw [h2 a ha]
    | false => exact ih

/-- Replacing the matched element by key: `find?` afterwards returns the
replacement. -/
theorem find?_map_replace {α : Type} (key : α → Nat) (l : List α) (k : Nat)
    (u u' : α) (h : l.find? (fun x => key x == k) = some u)
    (h' : key u' = k) :
    (l.map (fun x => if key x == key u' then u' else x)).find?
      (fun x => key x == k) = some u' := by
  induction l with
  | nil => simp [List.find?] at h
  | cons a t ih =>
    simp only [List.find?] at h
    cases ha : (key a == k) with
    | true =>
      have h1 : (key a == key u') = true := by rw [h']; exact ha
      have h2 : (key u' == k) = true := by simp [h']
      simp [List.find?, h1, h2]
    | false =>
      rw [ha] at h
      have h1 : (key a == key u') = false := by rw [h']; exact ha
      simpa [List.find?, h1, ha] using ih h

/-- Saving a user does not touch the recipes collection. -/
theorem findRecipe_saveUser (db : DB) (u : UserRec) (i : Nat) :
    findRecipe (saveUser db u) i = findRecipe db i := rfl

/-- Overwriting the user document found for `uid` makes the overwritten
document the one found afterwards. -/
theorem findUser_saveUser_self (db : DB) (uid : Nat) (user u' : UserRec)
    (h : findUser db uid = some user) (h' : u'.uid = uid) :
    findUser (saveUser db u') uid = some u' := by
  unfold findUser saveUser at *
  exact find?_map_replace UserRec.uid db.users uid user u' h h'

/-- Saving a recipe leaves every document with a different id untouched. -/
theorem findRecipe_saveRecipe_ne (db : DB) (s : Recipe) (j : Nat)
    (h : j ≠ s.rid) :
    findRecipe (saveRecipe db s) j = findRecipe db j := by
  unfold findRecipe saveRecipe
  refine find?_map_congr _ _ _ ?_ ?_
  · intro x
    by_cases hx : x.rid = s.rid
    · have h2 : (s.rid == j) = false := by simp [Ne.symm h]
      simp [hx, h2]
    · have h2 : (x.rid == s.rid) = false := by simp [hx]
      simp [h2]
  · intro x hx
    have hxj : x.rid = j := by simpa using hx
    have h2 : (x.rid == s.rid) = false := by
      simp only [hxj, beq_eq_false_iff_ne, ne_eq]
      exact h
    simp [h2]

/-! ## Concrete fixtures used by counterexamples and witnesses -/

/-- A stored recipe photo. -/
def exPhoto : PhotoHandle := ⟨"pid0", "url0"⟩

/-- A review by user 2 on the fixture recipe. -/
def exReview : Review := ⟨10, 5, "good", 2, []⟩

/-- A recipe owned by user 1, with a photo and one review by user 2. -/
def exRecipe : Recipe :=
  ⟨1, "Soup", ["salt", "water"], "boil", "dinner", "20", some exPhoto, 1,
   [exReview]⟩

/-- User 1, no profile photo, no favorites. -/
def exUser : UserRec := ⟨1, "alice", none, []⟩

/-- User 2, with a profile photo and an unrelated favorite. -/
def exUser2 : UserRec := ⟨2, "bob", some ⟨"oldpid", "oldurl"⟩, [5]⟩

/-- The fixture database. -/
def exDb : DB := ⟨[exRecipe], [exUser, exUser2]⟩

/-- A well-formed request id denoting the fixture recipe. -/
def exId : ReqId := ⟨true, 1⟩

/-! ## C1 — asset-release failure during delete/update -/

/-- C1 counterexample: the claim says a failing Cloudinary destroy during
`deleteRecipe` is swallowed, the record is still deleted and success is
reported.  On the owner's delete of the existing fixture recipe, a rejected
destroy instead yields the uncaught `destroyError` outcome (not `ok`) and
the database still contains the recipe: the handler has no try/catch around
`await cloudinary.uploader.destroy`, so `recipe.deleteOne()` is never
reached. -/
theorem c1_counterexample :
    deleteRecipeHandler exDb 1 exId DestroyOutcome.rejected
      = (DeleteOutcome.destroyError, exDb, [ExtCall.destroyCall "pid0"])
    ∧ findRecipe exDb 1 = some exRecipe
    ∧ exRecipe.createdBy = 1
    ∧ DeleteOutcome.destroyError ≠ DeleteOutcome.ok := by
  exact ⟨rfl, rfl, rfl, by decide⟩

/-- C1 (amended): for the owner's delete of an existing recipe with a
photo, a rejected destroy fails the whole operation and leaves the record
in place; the record is deleted and success reported exactly when the
destroy promise resolves (its result payload, even a non-ok one, is
ignored).  Likewise in update, a rejected destroy of the old photo fails
the operation before any commit. -/
theorem c1_amended (db : DB) (uid : Nat) (rid : ReqId) (r : Recipe)
    (ph : PhotoHandle) (hv : rid.valid = true)
    (hf : findRecipe db rid.oid = some r) (hown : r.createdBy = uid)
    (hph : r.photo = some ph) :
    deleteRecipeHandler db uid rid DestroyOutcome.rejected
      = (DeleteOutcome.destroyError, db, [ExtCall.destroyCall ph.public_id])
    ∧ (∀ s, deleteRecipeHandler db uid rid (DestroyOutcome.resolved s)
        = (DeleteOutcome.ok, removeRecipe db rid.oid,
           [ExtCall.destroyCall ph.public_id]))
    ∧ (∀ body upl,
        updateRecipeHandler db uid rid body (some ()) DestroyOutcome.rejected
          upl
        = (UpdateOutcome.destroyError, db,
           [ExtCall.destroyCall ph.public_id])) := by
  refine ⟨?_, ?_, ?_⟩ <;>
    simp [deleteRecipeHandler, updateRecipeHandler, hv, hf, hown, hph]

/-- C1 amended, instantiated: owner 1 deletes fixture recipe 1; the destroy
resolving with `"not found"` is ignored and the record is removed. -/
theorem c1_amended_witness :
    deleteRecipeHandler exDb 1 exId (DestroyOutcome.resolved "not found")
      = (DeleteOutcome.ok, removeRecipe exDb 1,
         [ExtCall.destroyCall "pid0"]) := by
  exact (c1_amended exDb 1 exId exRecipe exPhoto rfl rfl rfl rfl).2.1
    "not found"

/-! ## C2 — favorite annotation on the read endpoints -/

/-- C2: on `getRecipe` and `listRecipes`, an unknown viewer never produces
an annotated response (no `isFavorited` key), and a viewer resolving to a
stored user never produces the plain response: every successful
authenticated response is annotated, and the annotation of each returned
recipe is exactly membership of that recipe's id in the viewer's favorites
set. -/
theorem c2_isFavorited_read (db : DB) (rid : ReqId) (cat : String)
    (uid : Nat) (user : UserRec) (hu : findUser db uid = some user) :
    (∀ r b, getRecipeHandler db none rid ≠ GetOutcome.okAnnotated r b)
    ∧ (∀ rs, listRecipesHandler db none cat ≠ ListOutcome.okAnnotated rs)
    ∧ (∀ r, getRecipeHandler db (some uid) rid ≠ GetOutcome.okPlain r)
    ∧ (∀ rs, listRecipesHandler db (some uid) cat ≠ ListOutcome.okPlain rs)
    ∧ (∀ r b, getRecipeHandler db (some uid) rid = GetOutcome.okAnnotated r b
        → b = user.favorites.any (fun f => f == r.rid))
    ∧ (∀ rs, listRecipesHandler db (some uid) cat = ListOutcome.okAnnotated rs
        → ∀ p ∈ rs, p.2 = user.favorites.any (fun f => f == p.1.rid)) := by
  refine ⟨?_, ?_, ?_, ?_, ?_, ?_⟩
  · intro r b
    simp only [getRecipeHandler]
    cases hv : rid.valid <;> simp
    cases hf : findRecipe db rid.oid <;> simp
  · intro rs
    simp [listRecipesHandler]
  · intro r
    simp only [getRecipeHandler]
    cases hv : rid.valid <;> simp
    cases hf : findRecipe db rid.oid <;> simp [hu]
  · intro rs
    simp [listRecipesHandler, hu]
  · intro r b
    simp only [getRecipeHandler]
    cases hv : rid.valid <;> simp
    cases hf : findRecipe db rid.oid <;> simp [hu]
    intro h1 h2
    rw [← h1, ← h2]
  · intro rs hEq p hp
    simp only [listRecipesHandler, hu] at hEq
    simp only [ListOutcome.okAnnotated.injEq] at hEq
    rw [← hEq] at hp
    obtain ⟨a, _, rfl⟩ := List.mem_map.mp hp
    rfl

/-- C2 instantiated at the fixture database with viewer 1: the
unauthenticated read is plain, the authenticated one is annotated with the
favorites-membership of recipe 1 (false for user 1). -/
theorem c2_isFavorited_read_witness :
    getRecipeHandler exDb none exId ≠ GetOutcome.okAnnotated exRecipe false
    ∧ getRecipeHandler exDb (some 1) exId ≠ GetOutcome.okPlain exRecipe
    ∧ (getRecipeHandler exDb (some 1) exId
        = GetOutcome.okAnnotated exRecipe false
       → false = exUser.favorites.any (fun f => f == exRecipe.rid)) := by
  have h := c2_isFavorited_read exDb exId "" 1 exUser rfl
  exact ⟨h.1 exRecipe false, h.2.2.1 exRecipe,
    fun hh => h.2.2.2.2.1 exRecipe false hh⟩

/-! ## C3 — photo replacement in update -/

/-- C3: when the owner updates an existing recipe (with a photo) supplying
new photo bytes and a parseable body, and both external calls succeed, the
trace is exactly destroy-of-old then upload, the saved aggregate's photo is
the freshly uploaded handle, and the database commit is that save; if the
upload fails, the handler aborts and the database is unchanged, so the
persisted recipe still carries the old photo handle. -/
theorem c3_photo_replacement (db : DB) (uid : Nat) (rid : ReqId)
    (r : Recipe) (old : PhotoHandle) (body : RecipeBody)
    (hv : rid.valid = true) (hf : findRecipe db rid.oid = some r)
    (hown : r.createdBy = uid) (hph : r.photo = some old)
    (hing : body.ingredients ≠ IngredientsField.malformed) :
    (∀ pid url s,
      updateRecipeHandler db uid rid body (some ())
          (DestroyOutcome.resolved s) (UploadOutcome.ok pid url)
        = (UpdateOutcome.ok (applyRecipeBody r body (some ⟨pid, url⟩)),
           saveRecipe db (applyRecipeBody r body (some ⟨pid, url⟩)),
           [ExtCall.destroyCall old.public_id,
            ExtCall.uploadCall "recipe-app/recipes"])
      ∧ (applyRecipeBody r body (some ⟨pid, url⟩)).photo = some ⟨pid, url⟩)
    ∧ (∀ s,
      updateRecipeHandler db uid rid body (some ())
          (DestroyOutcome.resolved s) UploadOutcome.err
        = (UpdateOutcome.uploadError, db,
           [ExtCall.destroyCall old.public_id,
            ExtCall.uploadCall "recipe-app/recipes"])) := by
  constructor
  · intro pid url s
    constructor
    · cases hi : body.ingredients
      · simp [updateRecipeHandler, updateFinish, hv, hf, hown, hph, hi]
      · exact absurd hi hing
      · simp [updateRecipeHandler, updateFinish, hv, hf, hown, hph, hi]
    · rfl
  · intro s
    simp [updateRecipeHandler, hv, hf, hown, hph]

/-- C3 instantiated: owner 1 replaces the fixture photo with upload result
`("pid1","url1")` and an empty partial body; and with a failing upload the
database is returned unchanged. -/
theorem c3_photo_replacement_witness :
    updateRecipeHandler exDb 1 exId ⟨"", .absent, "", "", ""⟩ (some ())
        (DestroyOutcome.resolved "ok") (UploadOutcome.ok "pid1" "url1")
      = (UpdateOutcome.ok
           (applyRecipeBody exRecipe ⟨"", .absent, "", "", ""⟩
             (some ⟨"pid1", "url1"⟩)),
         saveRecipe exDb
           (applyRecipeBody exRecipe ⟨"", .absent, "", "", ""⟩
             (some ⟨"pid1", "url1"⟩)),
         [ExtCall.destroyCall "pid0", ExtCall.uploadCall "recipe-app/recipes"])
    ∧ updateRecipeHandler exDb 1 exId ⟨"", .absent, "", "", ""⟩ (some ())
        (DestroyOutcome.resolved "ok") UploadOutcome.err
      = (UpdateOutcome.uploadError, exDb,
         [ExtCall.destroyCall "pid0",
          ExtCall.uploadCall "recipe-app/recipes"]) := by
  have h := c3_photo_replacement exDb 1 exId exRecipe exPhoto
    ⟨"", .absent, "", "", ""⟩ rfl rfl rfl rfl (by simp)
  exact ⟨(h.1 "pid1" "url1" "ok").1, h.2 "ok"⟩

/-! ## C4 / C7 — review validation and the duplicate guard -/

/-- Evaluation of the review handler once the recipe is found: the rating
check, then the trimmed-description check, then the duplicate scan, then
the append-and-save. -/
theorem addReview_unfold (db : DB) (uid : Nat) (rid : ReqId) (r : Recipe)
    (rating : Int) (desc : String) (freshId : Nat)
    (hv : rid.valid = true) (hf : findRecipe db rid.oid = some r) :
    addReviewHandler db uid rid rating desc freshId
      = if rating == 0 || rating < 1 || rating > 10 then
          (AddReviewOutcome.ratingInvalid, db)
        else if jsTrim desc == "" then (AddReviewOutcome.descRequired, db)
        else if r.reviews.any (fun rv => rv.user == uid) then
          (AddReviewOutcome.duplicateReview, db)
        else
          (AddReviewOutcome.ok
            { r with reviews :=
                r.reviews ++ [⟨freshId, rating, desc, uid, []⟩] },
           saveRecipe db
            { r with reviews :=
                r.reviews ++ [⟨freshId, rating, desc, uid, []⟩] }) := by
  simp [addReviewHandler, hv, hf]

/-- C4 counterexample: user 2 already has a review on the fixture recipe,
yet a second `addReview` by user 2 with rating 0 (and a fresh description)
fails with the rating `ValidationError`, not `DuplicateReview`: the
validation branches run before the duplicate scan. -/
theorem c4_counterexample :
    exRecipe.reviews.any (fun rv => rv.user == 2) = true
    ∧ addReviewHandler exDb 2 exId 0 "different text" 99
        = (AddReviewOutcome.ratingInvalid, exDb)
    ∧ AddReviewOutcome.ratingInvalid ≠ AddReviewOutcome.duplicateReview := by
  exact ⟨rfl, rfl, by decide⟩

/-- C4 (amended): if the actor already has a review on an existing recipe,
every second `addReview` by that actor fails and leaves the database
unchanged; it fails with `DuplicateReview` whenever the submitted rating
is in [1,10] and the description is non-empty after trimming (otherwise
the earlier `ValidationError` branches fire). -/
theorem c4_amended (db : DB) (uid : Nat) (rid : ReqId) (r : Recipe)
    (rating : Int) (desc : String) (freshId : Nat)
    (hv : rid.valid = true) (hf : findRecipe db rid.oid = some r)
    (hdup : r.reviews.any (fun rv => rv.user == uid) = true) :

    (addReviewHandler db uid rid rating desc freshId).2 = db
    ∧ (∀ saved, (addReviewHandler db uid rid rating desc freshId).1
        ≠ AddReviewOutcome.ok saved)
    ∧ (1 ≤ rating → rating ≤ 10 → jsTrim desc ≠ "" →
        addReviewHandler db uid rid rating desc freshId
          = (AddReviewOutcome.duplicateReview, db)) := by
  rw [addReview_unfold db uid rid r rating desc freshId hv hf]
  refine ⟨?_, ?_, ?_⟩
  · by_cases h1 : (rating == 0 || decide (rating < 1) || decide (rating > 10))
      = true
    · simp [h1]
    · simp only [Bool.not_eq_true] at h1
      by_cases h2 : (jsTrim desc == "") = true
      · simp [h1, h2]
      · simp only [Bool.not_eq_true] at h2
        simp [h1, h2, hdup]
  · intro saved
    by_cases h1 : (rating == 0 || decide (rating < 1) || decide (rating > 10))
      = true
    · simp [h1]
    · simp only [Bool.not_eq_true] at h1
      by_cases h2 : (jsTrim desc == "") = true
      · simp [h1, h2]
      · simp only [Bool.not_eq_true] at h2
        simp [h1, h2, hdup]
  · intro hlo hhi hdesc
    have e0 : (rating == 0) = false := by simp; omega
    have e1 : decide (rating < 1) = false := by simp; omega
    have e2 : decide (rating > 10) = false := by simp; omega
    have h2 : (jsTrim desc == "") = false := by simpa using hdesc
    simp [e0, e1, e2, h2, hdup]

/-- C4 amended, instantiated: a second review by user 2 on the fixture
recipe with a valid rating and a different description yields
`DuplicateReview` and the unchanged database. -/
theorem c4_amended_witness :
    addReviewHandler exDb 2 exId 9 "different text" 99
      = (AddReviewOutcome.duplicateReview, exDb) := by
  exact (c4_amended exDb 2 exId exRecipe 9 "different text" 99 rfl rfl
    rfl).2.2 (by decide) (by decide) (by decide)

/-! ## C5 — ownership boundary -/

/-- C5: an authenticated actor who is not the owner of an existing recipe
always gets the `Forbidden` outcome (401 "Not authorized") from both
update and delete, for every payload — file or not, malformed or not —
and the database is returned unchanged. -/
theorem c5_ownership (db : DB) (uid : Nat) (rid : ReqId) (r : Recipe)
    (hv : rid.valid = true) (hf : findRecipe db rid.oid = some r)
    (hno : r.createdBy ≠ uid) :
    (∀ body file destroy upl,
      updateRecipeHandler db uid rid body file destroy upl
        = (UpdateOutcome.forbidden, db, []))
    ∧ (∀ destroy, deleteRecipeHandler db uid rid destroy
        = (DeleteOutcome.forbidden, db, [])) := by
  refine ⟨?_, ?_⟩ <;> intros <;>
    simp [updateRecipeHandler, deleteRecipeHandler, hv, hf, hno]

/-- C5 instantiated: user 2 is not the owner of the fixture recipe; with a
deliberately malformed payload the update is still `Forbidden`, as is the
delete. -/
theorem c5_ownership_witness :
    updateRecipeHandler exDb 2 exId ⟨"x", .malformed, "", "", ""⟩ (some ())
        DestroyOutcome.rejected UploadOutcome.err
      = (UpdateOutcome.forbidden, exDb, [])
    ∧ deleteRecipeHandler exDb 2 exId DestroyOutcome.rejected
      = (DeleteOutcome.forbidden, exDb, []) := by
  have h := c5_ownership exDb 2 exId exRecipe rfl rfl (by decide)
  exact ⟨h.1 ⟨"x", .malformed, "", "", ""⟩ (some ()) DestroyOutcome.rejected
      UploadOutcome.err,
    h.2 DestroyOutcome.rejected⟩

/-! ## C6 — favorite toggling idempotency guard -/

/-- C6: for an existing recipe and a stored user who has not favorited it,
adding the favorite succeeds (responding `isFavorited: true` and saving the
extended set); immediately adding it again on the resulting state fails
with `AlreadyFavorited` and changes nothing; and removing it while absent
fails with `NotFavorited` and changes nothing. -/
theorem c6_favorite_idempotency (db : DB) (uid : Nat) (rid : ReqId)
    (r : Recipe) (user : UserRec)
    (hv : rid.valid = true) (hf : findRecipe db rid.oid = some r)
    (hu : findUser db uid = some user)
    (hnot : user.favorites.contains r.rid = false) :
    addFavoriteHandler db uid rid
      = (FavOutcome.ok true,
         saveUser db { user with favorites := user.favorites ++ [r.rid] })
    ∧ addFavoriteHandler
        (saveUser db { user with favorites := user.favorites ++ [r.rid] })
        uid rid
      = (FavOutcome.alreadyFavorited,
         saveUser db { user with favorites := user.favorites ++ [r.rid] })
    ∧ removeFavoriteHandler db uid rid = (FavOutcome.notFavorited, db) := by
  have huid : user.uid = uid := by simpa using List.find?_some hu
  have hmem : r.rid ∉ user.favorites := by simpa using hnot
  have hu2 : findUser
      (saveUser db { user with favorites := user.favorites ++ [r.rid] }) uid
      = some { user with favorites := user.favorites ++ [r.rid] } :=
    findUser_saveUser_self db uid user _ hu huid
  have hf2 : findRecipe
      (saveUser db { user with favorites := user.favorites ++ [r.rid] })
      rid.oid = some r := hf
  refine ⟨?_, ?_, ?_⟩
  · simp [addFavoriteHandler, hv, hf, hu, hmem]
  · simp [addFavoriteHandler, hv, hf2, hu2]
  · simp [removeFavoriteHandler, hv, hf, hu, hmem]

/-- C6 instantiated: user 1 (empty favorites) on fixture recipe 1. -/
theorem c6_favorite_idempotency_witness :
    addFavoriteHandler exDb 1 exId
      = (FavOutcome.ok true,
         saveUser exDb
           { exUser with favorites := exUser.favorites ++ [exRecipe.rid] })
    ∧ addFavoriteHandler
        (saveUser exDb
          { exUser with favorites := exUser.favorites ++ [exRecipe.rid] })
        1 exId
      = (FavOutcome.alreadyFavorited,
         saveUser exDb
           { exUser with favorites := exUser.favorites ++ [exRecipe.rid] })
    ∧ removeFavoriteHandler exDb 1 exId
      = (FavOutcome.notFavorited, exDb) := by
  exact c6_favorite_idempotency exDb 1 exId exRecipe exUser rfl rfl rfl rfl

/-! ## C7 — rating boundaries and description validation -/

/-- C7: on an existing recipe, with a description that is non-empty after
trimming and no prior review by the actor, ratings 1 and 10 succeed
(appending the review and saving) while 0 and 11 — and in general every
rating outside [1,10] — fail with the rating `ValidationError` and leave
the database unchanged; and every submission whose description trims to
empty fails with one of the two `ValidationError` branches. -/
theorem c7_rating_boundary (db : DB) (uid : Nat) (rid : ReqId) (r : Recipe)
    (desc : String) (freshId : Nat)
    (hv : rid.valid = true) (hf : findRecipe db rid.oid = some r)
    (hdesc : jsTrim desc ≠ "")
    (hnodup : r.reviews.any (fun rv => rv.user == uid) = false) :
    addReviewHandler db uid rid 1 desc freshId
      = (AddReviewOutcome.ok
           { r with reviews := r.reviews ++ [⟨freshId, 1, desc, uid, []⟩] },
         saveRecipe db
           { r with reviews := r.reviews ++ [⟨freshId, 1, desc, uid, []⟩] })
    ∧ addReviewHandler db uid rid 10 desc freshId
      = (AddReviewOutcome.ok
           { r with reviews := r.reviews ++ [⟨freshId, 10, desc, uid, []⟩] },
         saveRecipe db
           { r with reviews := r.reviews ++ [⟨freshId, 10, desc, uid, []⟩] })
    ∧ addReviewHandler db uid rid 0 desc freshId
      = (AddReviewOutcome.ratingInvalid, db)
    ∧ addReviewHandler db uid rid 11 desc freshId
      = (AddReviewOutcome.ratingInvalid, db)
    ∧ (∀ q : Int, q < 1 ∨ 10 < q →
        addReviewHandler db uid rid q desc freshId
          = (AddReviewOutcome.ratingInvalid, db))
    ∧ (∀ (q : Int) (d2 : String), jsTrim d2 = "" →
        (addReviewHandler db uid rid q d2 freshId).1
            = AddReviewOutcome.ratingInvalid
        ∨ (addReviewHandler db uid rid q d2 freshId).1
            = AddReviewOutcome.descRequired) := by
  have hd : (jsTrim desc == "") = false := by simpa using hdesc
  refine ⟨?_, ?_, ?_, ?_, ?_, ?_⟩
  · rw [addReview_unfold db uid rid r 1 desc freshId hv hf]
    norm_num [hd, hnodup]
  · rw [addReview_unfold db uid rid r 10 desc freshId hv hf]
    norm_num [hd, hnodup]
  · rw [addReview_unfold db uid rid r 0 desc freshId hv hf]
    norm_num
  · rw [addReview_unfold db uid rid r 11 desc freshId hv hf]
    norm_num
  · intro q hq
    rw [addReview_unfold db uid rid r q desc freshId hv hf]
    have hc : (q == 0 || decide (q < 1) || decide (q > 10)) = true := by
      rcases hq with h | h <;> simp [h]
    simp [hc]
  · intro q d2 hd2
    rw [addReview_unfold db uid rid r q d2 freshId hv hf]
    by_cases hc : (q == 0 || decide (q < 1) || decide (q > 10)) = true
    · left
      simp [hc]
    · right
      simp only [Bool.not_eq_true] at hc
      simp [hc, hd2]

/-- C7 instantiated: user 1 (no prior review) on fixture recipe 1 with
description "fine": ratings 1 and 10 succeed, 0 and 11 are rejected. -/
theorem c7_rating_boundary_witness :
    addReviewHandler exDb 1 exId 1 "fine" 42
      = (AddReviewOutcome.ok
           { exRecipe with reviews :=
               exRecipe.reviews ++ [⟨42, 1, "fine", 1, []⟩] },
         saveRecipe exDb
           { exRecipe with reviews :=
               exRecipe.reviews ++ [⟨42, 1, "fine", 1, []⟩] })
    ∧ addReviewHandler exDb 1 exId 0 "fine" 42
      = (AddReviewOutcome.ratingInvalid, exDb)
    ∧ addReviewHandler exDb 1 exId 11 "fine" 42
      = (AddReviewOutcome.ratingInvalid, exDb) := by
  have h := c7_rating_boundary exDb 1 exId exRecipe "fine" 42 rfl rfl
    (by decide) rfl
  exact ⟨h.1, h.2.2.1, h.2.2.2.1⟩

/-! ## C8 — owner reference immutable, update frame -/

/-- Inversion of the final save step: a successful `updateFinish` preserves
the document id, the owner reference and the reviews, and commits exactly
the whole-aggregate save of the updated document. -/
theorem updateFinish_ok (db : DB) (recipe : Recipe) (body : RecipeBody)
    (np : Option PhotoHandle) (tr : List ExtCall) (saved : Recipe) (db' : DB)
    (tr' : List ExtCall)
    (h : updateFinish db recipe body np tr = (.ok saved, db', tr')) :
    saved.createdBy = recipe.createdBy ∧ saved.reviews = recipe.reviews
    ∧ saved.rid = recipe.rid ∧ db' = saveRecipe db saved := by
  unfold updateFinish at h
  cases hi : body.ingredients <;> rw [hi] at h <;> simp at h
  all_goals
    obtain ⟨h1, h2, h3⟩ := h
    subst h1
    exact ⟨rfl, rfl, rfl, h2.symm⟩

/-- Inversion of the update handler: a successful update implies the id was
valid, the recipe was found, the actor owns it, and the saved aggregate
keeps id, owner and reviews while the commit is the whole-aggregate save. -/
theorem updateRecipeHandler_ok (db : DB) (uid : Nat) (rid : ReqId)
    (body : RecipeBody) (file : Option Unit) (destroy : DestroyOutcome)
    (upl : UploadOutcome) (saved : Recipe) (db' : DB) (tr : List ExtCall)
    (h : updateRecipeHandler db uid rid body file destroy upl
          = (.ok saved, db', tr)) :
    ∃ r, findRecipe db rid.oid = some r ∧ r.createdBy = uid
      ∧ saved.createdBy = r.createdBy ∧ saved.reviews = r.reviews
      ∧ saved.rid = r.rid ∧ db' = saveRecipe db saved := by
  cases hv : rid.valid
  · simp [updateRecipeHandler, hv] at h
  · cases hf : findRecipe db rid.oid
    · simp [updateRecipeHandler, hv, hf] at h
    · rename_i r
      by_cases hown : r.createdBy = uid
      · cases file with
        | none =>
          simp only [updateRecipeHandler, hv, Bool.not_true,
            Bool.false_eq_true, if_false, hf] at h
          rw [if_neg (by simp [hown])] at h
          obtain ⟨h1, h2, h3, h4⟩ := updateFinish_ok _ _ _ _ _ _ _ _ h
          exact ⟨r, rfl, hown, h1, h2, h3, h4⟩
        | some _ =>
          cases hph : r.photo with
          | none =>
            cases upl with
            | ok pid url =>
              simp only [updateRecipeHandler, hv, Bool.not_true,
                Bool.false_eq_true, if_false, hf, hph] at h
              rw [if_neg (by simp [hown])] at h
              obtain ⟨h1, h2, h3, h4⟩ := updateFinish_ok _ _ _ _ _ _ _ _ h
              exact ⟨r, rfl, hown, h1, h2, h3, h4⟩
            | err => simp [updateRecipeHandler, hv, hf, hph, hown] at h
          | some ph =>
            cases destroy with
            | rejected => simp [updateRecipeHandler, hv, hf, hph, hown] at h
            | resolved s =>
              cases upl with
              | ok pid url =>
                simp only [updateRecipeHandler, hv, Bool.not_true,
                  Bool.false_eq_true, if_false, hf, hph] at h
                rw [if_neg (by simp [hown])] at h
                obtain ⟨h1, h2, h3, h4⟩ :=
                  updateFinish_ok _ _ _ _ _ _ _ _ h
                exact ⟨r, rfl, hown, h1, h2, h3, h4⟩
              | err => simp [updateRecipeHandler, hv, hf, hph, hown] at h
      · simp [updateRecipeHandler, hv, hf, hown] at h

/-- C8: creation stores `createdBy` equal to the creating identity, and a
successful update saves an aggregate with the same id, owner and reviews
as the loaded one — only the six content fields can differ — committing
via the whole-aggregate save, which leaves the users collection and every
other recipe untouched. -/
theorem c8_createdBy_immutable (db : DB) (uid : Nat) (rid : ReqId)
    (r : Recipe) (cbody : RecipeBody) (items : List String)
    (body : RecipeBody) (file : Option Unit) (destroy : DestroyOutcome)
    (upl : UploadOutcome) (freshId : Nat) (pid url : String)
    (hf : findRecipe db rid.oid = some r)
    (ht : cbody.title ≠ "") (hing : cbody.ingredients = .parsed items)
    (hins : cbody.instructions ≠ "") (hcat : cbody.category ≠ "")
    (hct : cbody.cookingTime ≠ "") :
    createRecipeHandler db uid cbody (some ()) (UploadOutcome.ok pid url)
        freshId
      = (CreateOutcome.ok
           ⟨freshId, cbody.title, items, cbody.instructions, cbody.category,
            cbody.cookingTime, some ⟨pid, url⟩, uid, []⟩,
         { db with recipes := db.recipes ++
             [⟨freshId, cbody.title, items, cbody.instructions,
               cbody.category, cbody.cookingTime, some ⟨pid, url⟩, uid, []⟩] },
         [ExtCall.uploadCall "recipe-app/recipes"])
    ∧ (∀ saved db' tr,
        updateRecipeHandler db uid rid body file destroy upl
            = (.ok saved, db', tr) →
        saved.createdBy = r.createdBy ∧ saved.reviews = r.reviews
        ∧ saved.rid = r.rid ∧ db' = saveRecipe db saved
        ∧ db'.users = db.users
        ∧ ∀ j, j ≠ r.rid → findRecipe db' j = findRecipe db j) := by
  constructor
  · simp [createRecipeHandler, IngredientsField.isAbsent, ht, hins, hcat,
      hct, hing]
  · intro saved db' tr h
    obtain ⟨r', hf', hown', h1, h2, h3, h4⟩ :=
      updateRecipeHandler_ok db uid rid body file destroy upl saved db' tr h
    rw [hf'] at hf
    obtain rfl := Option.some.inj hf
    refine ⟨h1, h2, h3, h4, ?_, ?_⟩
    · rw [h4]
      rfl
    · intro j hj
      rw [h4]
      exact findRecipe_saveRecipe_ne db saved j (by rw [h3]; exact hj)

/-- C8 instantiated: creating "Pie" as user 1 stores `createdBy = 1`, and a
successful no-photo partial update of the fixture recipe keeps its owner,
id and reviews. -/
theorem c8_createdBy_immutable_witness :
    createRecipeHandler exDb 1 ⟨"Pie", .parsed ["apple"], "bake", "dessert",
        "30"⟩ (some ()) (UploadOutcome.ok "pid2" "url2") 7
      = (CreateOutcome.ok
           ⟨7, "Pie", ["apple"], "bake", "dessert", "30",
            some ⟨"pid2", "url2"⟩, 1, []⟩,
         { exDb with recipes := exDb.recipes ++
             [⟨7, "Pie", ["apple"], "bake", "dessert", "30",
               some ⟨"pid2", "url2"⟩, 1, []⟩] },
         [ExtCall.uploadCall "recipe-app/recipes"])
    ∧ (applyRecipeBody exRecipe ⟨"New", .absent, "", "", ""⟩
         exRecipe.photo).createdBy = exRecipe.createdBy := by
  have h := c8_createdBy_immutable exDb 1 exId exRecipe
    ⟨"Pie", .parsed ["apple"], "bake", "dessert", "30"⟩ ["apple"]
    ⟨"New", .absent, "", "", ""⟩ none DestroyOutcome.rejected
    UploadOutcome.err 7 "pid2" "url2" rfl (by decide) rfl (by decide)
    (by decide) (by decide)
  exact ⟨h.1, (h.2 (applyRecipeBody exRecipe ⟨"New", .absent, "", "", ""⟩
    exRecipe.photo) (saveRecipe exDb (applyRecipeBody exRecipe
    ⟨"New", .absent, "", "", ""⟩ exRecipe.photo)) [] rfl).1⟩

/-! ## C9 — descriptions stored verbatim -/

/-- C9: trimming is used only for validation.  A review or reply whose
description is non-empty after trimming is accepted, and the appended
subdocument carries the submitted string itself — untrimmed — into the
saved aggregate. -/
theorem c9_verbatim_description (db : DB) (uid : Nat) (rid revId : ReqId)
    (r : Recipe) (rv : Review) (rating : Int) (desc : String) (freshId : Nat)
    (hv : rid.valid = true) (hrv : revId.valid = true)
    (hf : findRecipe db rid.oid = some r)
    (hfind : r.reviews.find? (fun x => x.reviewId == revId.oid) = some rv)
    (hr1 : 1 ≤ rating) (hr2 : rating ≤ 10)
    (hdesc : jsTrim desc ≠ "")
    (hnodup : r.reviews.any (fun x => x.user == uid) = false) :
    addReviewHandler db uid rid rating desc freshId
      = (AddReviewOutcome.ok
           { r with reviews :=
               r.reviews ++ [⟨freshId, rating, desc, uid, []⟩] },
         saveRecipe db
           { r with reviews :=
               r.reviews ++ [⟨freshId, rating, desc, uid, []⟩] })
    ∧ (⟨freshId, rating, desc, uid, []⟩ : Review).description = desc
    ∧ addReplyHandler db uid rid revId desc freshId
      = (AddReplyOutcome.ok
           { r with reviews := r.reviews.map (fun x =>
               if x.reviewId == revId.oid then
                 { x with replies := x.replies ++ [⟨freshId, desc, uid⟩] }
               else x) },
         saveRecipe db
           { r with reviews := r.reviews.map (fun x =>
               if x.reviewId == revId.oid then
                 { x with replies := x.replies ++ [⟨freshId, desc, uid⟩] }
               else x) })
    ∧ (⟨freshId, desc, uid⟩ : Reply).description = desc := by
  have e0 : (rating == 0) = false := by simp; omega
  have e1 : decide (rating < 1) = false := by simp; omega
  have e2 : decide (rating > 10) = false := by simp; omega
  have hd : (jsTrim desc == "") = false := by simpa using hdesc
  refine ⟨?_, rfl, ?_, rfl⟩
  · rw [addReview_unfold db uid rid r rating desc freshId hv hf]
    simp [e0, e1, e2, hd, hnodup]
  · simp [addReplyHandler, hv, hrv, hf, hfind, hd]

/-- C9 instantiated: user 1 submits the description `" tasty "` (non-empty
after trimming, but not equal to its trim) as a review on the fixture
recipe and as a reply to the fixture review; both are stored verbatim. -/
theorem c9_verbatim_description_witness :
    jsTrim " tasty " ≠ " tasty "
    ∧ addReviewHandler exDb 1 exId 7 " tasty " 42
      = (AddReviewOutcome.ok
           { exRecipe with reviews :=
               exRecipe.reviews ++ [⟨42, 7, " tasty ", 1, []⟩] },
         saveRecipe exDb
           { exRecipe with reviews :=
               exRecipe.reviews ++ [⟨42, 7, " tasty ", 1, []⟩] })
    ∧ addReplyHandler exDb 1 exId ⟨true, 10⟩ " tasty " 43
      = (AddReplyOutcome.ok
           { exRecipe with reviews := exRecipe.reviews.map (fun x =>
               if x.reviewId == (10 : Nat) then
                 { x with replies := x.replies ++ [⟨43, " tasty ", 1⟩] }
               else x) },
         saveRecipe exDb
           { exRecipe with reviews := exRecipe.reviews.map (fun x =>
               if x.reviewId == (10 : Nat) then
                 { x with replies := x.replies ++ [⟨43, " tasty ", 1⟩] }
               else x) }) := by
  have h := c9_verbatim_description exDb 1 exId ⟨true, 10⟩ exRecipe exReview
    7 " tasty " 42 rfl rfl rfl rfl (by decide) (by decide) (by decide) rfl
  refine ⟨by decide, h.1, ?_⟩
  have h2 := c9_verbatim_description exDb 1 exId ⟨true, 10⟩ exRecipe exReview
    7 " tasty " 43 rfl rfl rfl rfl (by decide) (by decide) (by decide) rfl
  exact h2.2.2.1

/-! ## C10 — profile photo: upload first, then release, then write -/

/-- C10: in the profile-photo handler the upload happens first; when it
fails the request ends in the 500 upload failure with the database — hence
the stored `profilePhoto` handle — unchanged and the old asset never
destroyed; when it succeeds (and the destroy of the old photo resolves),
the trace is upload before destroy and only then is the user record
written with the new handle. -/
theorem c10_profile_photo_order (db : DB) (user : UserRec)
    (old : PhotoHandle) (pid url s : String)
    (hph : user.profilePhoto = some old)
    (hu : findUser db user.uid = some user) :
    (∀ destroy,
      updateProfilePhotoHandler db user (some ()) UploadOutcome.err destroy
        = (ProfilePhotoOutcome.uploadFailed, db,
           [ExtCall.uploadCall "recipe-app/profiles"]))
    ∧ updateProfilePhotoHandler db user (some ()) (UploadOutcome.ok pid url)
        (DestroyOutcome.resolved s)
      = (ProfilePhotoOutcome.ok ⟨pid, url⟩,
         setUserPhoto db user.uid ⟨pid, url⟩,
         [ExtCall.uploadCall "recipe-app/profiles",
          ExtCall.destroyCall old.public_id]) := by
  refine ⟨?_, ?_⟩
  · intro destroy
    rfl
  · simp [updateProfilePhotoHandler, hph, hu]

/-- C10 instantiated: user 2 (who has an old profile photo) uploads a new
one; a failing upload changes nothing, a successful one writes the new
handle after uploading then destroying the old asset. -/
theorem c10_profile_photo_order_witness :
    updateProfilePhotoHandler exDb exUser2 (some ()) UploadOutcome.err
        DestroyOutcome.rejected
      = (ProfilePhotoOutcome.uploadFailed, exDb,
         [ExtCall.uploadCall "recipe-app/profiles"])
    ∧ updateProfilePhotoHandler exDb exUser2 (some ())
        (UploadOutcome.ok "pid3" "url3") (DestroyOutcome.resolved "ok")
      = (ProfilePhotoOutcome.ok ⟨"pid3", "url3"⟩,
         setUserPhoto exDb exUser2.uid ⟨"pid3", "url3"⟩,
         [ExtCall.uploadCall "recipe-app/profiles",
          ExtCall.destroyCall "oldpid"]) := by
  have h := c10_profile_photo_order exDb exUser2 ⟨"oldpid", "oldurl"⟩
    "pid3" "url3" "ok" rfl rfl
  exact ⟨h.1 DestroyOutcome.rejected, h.2⟩

end RecipeApp
